import Mathlib

/-!
Verification development for four Lumberyard source fragments:
`AZStd::static_storage` (thread-safe lazily published static value),
`AZ::PackedVector3` (tightly packed 3-component vector),
`EMStudio::AnimGraphOptions` (two persisted boolean preferences), and
`ScriptCanvas::RuntimeAssetHandler` (asset load/save shim).

Each C++ fragment is shallowly embedded: pure functions become Lean
functions, the concurrent `static_storage` primitive becomes an explicit
interleaved transition system, and engine facilities that are not part of
the excerpt (atomics aside, e.g. Qt settings, AzCore streams) are modelled
as abstract oracles following the spec's description of them.
-/

namespace Lumberyard

/-! ### AZStd::static_storage (src/unnamed/part_001)

The C++ class holds raw `m_storage` for a `T` and an atomic pointer
`m_object`.  The constructor placement-news the `T` into `m_storage` and
then stores the storage address into `m_object`; per the source comment
(part_001 lines 62-63) `m_object` itself is *not* initialized beforehand,
so before that store it holds an indeterminate value — the code relies on
the assumption stated in that comment that the indeterminate value is not
the one correct value (the storage address).  `operator T&` spins, loading
`m_object` until it equals the storage address.  The destructor does a
single `compare_exchange_strong` from the storage address to null and runs
the wrapped destructor only on CAS success.

We model the value held by the atomic pointer as `PtrVal`: `null`,
`storage` (the address of `m_storage`), or `junk g` (an arbitrary
indeterminate bit pattern, distinct from the one correct value as the
source comment assumes).  Executions are arbitrary interleavings of:
one constructor thread (two atomic-grained steps: placement-new, then
publish), `n` reader threads each spinning in `operator T&`, and one
teardown attempt performing the destructor's CAS. -/

/-- A value observable in the atomic pointer `m_object`. -/
inductive PtrVal where
  | null : PtrVal
  | storage : PtrVal
  | junk : Nat → PtrVal
deriving DecidableEq

/-- Shared + per-thread state of one `static_storage` instance with `n`
reader threads.  `constructCount` and `destructCount` count invocations of
the wrapped `T`'s constructor and of `Destructor`. -/
structure SSState (n : Nat) where
  mObject : PtrVal
  constructed : Bool
  ctorPC : Nat
  dtorDone : Bool
  constructCount : Nat
  destructCount : Nat
  readerDone : Fin n → Bool

/-- Initial state: the `T` is not yet constructed, no reader has returned,
and `m_object` is uninitialized, holding an arbitrary junk pattern `g`. -/
def initState (n g : Nat) : SSState n :=
  { mObject := PtrVal.junk g
    constructed := false
    ctorPC := 0
    dtorDone := false
    constructCount := 0
    destructCount := 0
    readerDone := fun _ => false }

/-- One atomic-grained step of some thread, mirroring the source:
  * `construct`: the constructor runs `new (&m_storage) T(...)`;
  * `publish`: the constructor runs `m_object.store(...)`;
  * `readerSpin`: a reader in `operator T&` loads `m_object`, sees a value
    other than the storage address, and keeps spinning;
  * `readerReturn`: a reader loads the storage address and returns `*obj`;
  * `destroyHit` / `destroyMiss`: the destructor's
    `compare_exchange_strong(expected = &m_storage, nullptr)` succeeds
    (and `Destructor()` runs) or fails (cleanup is skipped). -/
inductive SSStep (n : Nat) : SSState n → SSState n → Prop where
  | construct (s : SSState n) (h : s.ctorPC = 0) :
      SSStep n s { s with constructed := true, ctorPC := 1,
                          constructCount := s.constructCount + 1 }
  | publish (s : SSState n) (h : s.ctorPC = 1) :
      SSStep n s { s with mObject := PtrVal.storage, ctorPC := 2 }
  | readerSpin (s : SSState n) (i : Fin n) (h1 : s.readerDone i = false)
      (h2 : s.mObject ≠ PtrVal.storage) :
      SSStep n s s
  | readerReturn (s : SSState n) (i : Fin n) (h1 : s.readerDone i = false)
      (h2 : s.mObject = PtrVal.storage) :
      SSStep n s { s with readerDone := fun j => if j = i then true else s.readerDone j }
  | destroyHit (s : SSState n) (h1 : s.dtorDone = false)
      (h2 : s.mObject = PtrVal.storage) :
      SSStep n s { s with mObject := PtrVal.null, dtorDone := true,
                          destructCount := s.destructCount + 1 }
  | destroyMiss (s : SSState n) (h1 : s.dtorDone = false)
      (h2 : s.mObject ≠ PtrVal.storage) :
      SSStep n s { s with dtorDone := true }

/-- States reachable from the initial state with junk pattern `g` by some
interleaving of the threads' steps. -/
inductive SSReachable (n g : Nat) : SSState n → Prop where
  | init : SSReachable n g (initState n g)
  | step {s s2 : SSState n} : SSReachable n g s → SSStep n s s2 → SSReachable n g s2

/-- The inductive invariant of the model, proved below to hold of every
reachable state. -/
def SSInv (n g : Nat) (s : SSState n) : Prop :=
  (s.ctorPC = 0 → s.constructed = false ∧ s.constructCount = 0 ∧ s.mObject = PtrVal.junk g)
  ∧ (s.ctorPC = 1 → s.constructed = true ∧ s.mObject = PtrVal.junk g)
  ∧ (s.ctorPC = 2 → s.constructed = true ∧
      (s.mObject = PtrVal.storage ∨ s.mObject = PtrVal.null))
  ∧ s.ctorPC ≤ 2
  ∧ (s.mObject = PtrVal.storage → s.constructed = true)
  ∧ (∀ i, s.readerDone i = true → s.constructed = true)
  ∧ (s.constructed = true → s.constructCount = 1)
  ∧ (s.constructed = false → s.constructCount = 0)
  ∧ (s.dtorDone = false → s.destructCount = 0)
  ∧ s.destructCount ≤ 1

theorem ssInv_init (n g : Nat) : SSInv n g (initState n g) := by
  simp [SSInv, initState]

theorem ssInv_step {n g : Nat} {s s2 : SSState n}
    (hinv : SSInv n g s) (hstep : SSStep n s s2) : SSInv n g s2 := by
  obtain ⟨i0, i1, i2, ile, ist, ird, ic1, ic0, id0, id1⟩ := hinv
  cases hstep with
  | construct h =>
      obtain ⟨hcf, hcc, hmo⟩ := i0 h
      refine ⟨fun hh => by simp at hh, fun _ => ⟨rfl, hmo⟩,
        fun hh => by simp at hh, by simp, fun _ => rfl, fun i _ => rfl,
        fun _ => by simp [hcc], fun hh => by simp at hh, id0, id1⟩
  | publish h =>
      obtain ⟨hct, hmo⟩ := i1 h
      refine ⟨fun hh => by simp at hh, fun hh => by simp at hh,
        fun _ => ⟨hct, Or.inl rfl⟩, by simp, fun _ => hct,
        fun i hi => ird i hi, ic1, ic0, id0, id1⟩
  | readerSpin i hA hB =>
      exact ⟨i0, i1, i2, ile, ist, ird, ic1, ic0, id0, id1⟩
  | readerReturn i hA hB =>
      refine ⟨i0, i1, i2, ile, ist, fun j hj => ?_, ic1, ic0, id0, id1⟩
      by_cases hji : j = i
      · exact ist hB
      · simp only [hji, if_false] at hj
        exact ird j hj
  | destroyHit hA hB =>
      have hct : s.constructed = true := ist hB
      have hpc : s.ctorPC = 2 := by
        by_contra hne
        have hcase : s.ctorPC = 0 ∨ s.ctorPC = 1 := by omega
        rcases hcase with hx | hx
        · rw [(i0 hx).2.2] at hB; cases hB
        · rw [(i1 hx).2] at hB; cases hB
      have hdc : s.destructCount = 0 := id0 hA
      refine ⟨fun hh => by simp at hh; omega, fun hh => by simp at hh; omega,
        fun _ => ⟨hct, Or.inr rfl⟩, by simpa using ile, fun hh => by simp at hh,
        fun i hi => ird i hi, ic1, ic0, fun hh => by simp at hh, by simp [hdc]⟩
  | destroyMiss hA hB =>
      exact ⟨i0, i1, i2, ile, ist, ird, ic1, ic0, fun hh => by simp at hh, id1⟩

theorem ssInv_reachable {n g : Nat} {s : SSState n}
    (h : SSReachable n g s) : SSInv n g s := by
  induction h with
  | init => exact ssInv_init n g
  | step _ hstep ih => exact ssInv_step ih hstep

/-- The destructor's `compare_exchange_strong(expected = &m_storage, nullptr)`:
returns the new pointer value and whether the exchange succeeded (success is
exactly when `Destructor()(reinterpret_cast<T*>(&m_storage))` then runs). -/
def casDestroy (v : PtrVal) : PtrVal × Bool :=
  if v = PtrVal.storage then (PtrVal.null, true) else (v, false)

/-- `k` teardown attempts against the atomic pointer, each performing the
destructor body's single CAS.  Because every attempt touches the shared
state through exactly one atomic operation, any concurrent interleaving of
the attempts serializes into such a sequence.  Returns the final pointer
value and the number of `Destructor` invocations. -/
def runDestroys (v : PtrVal) : Nat → PtrVal × Nat
  | 0 => (v, 0)
  | k + 1 =>
      let r := casDestroy v
      let rest := runDestroys r.1 k
      (rest.1, (if r.2 then 1 else 0) + rest.2)

theorem runDestroys_stuck {v : PtrVal} (hv : v ≠ PtrVal.storage) :
    ∀ k : Nat, runDestroys v k = (v, 0) := by
  intro k
  induction k with
  | zero => rfl
  | succ k ih => simp [runDestroys, casDestroy, hv, ih]

/-- A concrete four-step execution used by the witnesses below:
construct, publish, then reader 0 returns. -/
def ssA : SSState 1 := initState 1 0

def ssB : SSState 1 :=
  { ssA with constructed := true, ctorPC := 1, constructCount := ssA.constructCount + 1 }

def ssC : SSState 1 := { ssB with mObject := PtrVal.storage, ctorPC := 2 }

def ssD : SSState 1 :=
  { ssC with readerDone := fun j => if j = (0 : Fin 1) then true else ssC.readerDone j }

theorem ssReachD : SSReachable 1 0 ssD :=
  SSReachable.step
    (SSReachable.step
      (SSReachable.step SSReachable.init (SSStep.construct ssA rfl))
      (SSStep.publish ssB rfl))
    (SSStep.readerReturn ssC 0 rfl rfl)

/-- C1 (counterexample to the claim as stated): in the execution with junk
pattern 7 the very first state — a point of the execution at which a reader
can and does perform a load of `m_object` (the `readerSpin` step) — has
`m_object` equal to neither null nor the storage address, because the
source leaves `m_object` uninitialized until the constructor's store
(part_001 lines 62-64). -/
theorem static_storage_uninit_pointer_counterexample :
    SSReachable 1 7 (initState 1 7)
    ∧ (initState 1 7).mObject ≠ PtrVal.null
    ∧ (initState 1 7).mObject ≠ PtrVal.storage
    ∧ SSStep 1 (initState 1 7) (initState 1 7) :=
  ⟨SSReachable.init, by decide, by decide,
    SSStep.readerSpin (initState 1 7) 0 rfl (by decide)⟩

/-- C1 (amended): in every reachable state of every execution, once the
constructor has published (`ctorPC = 2`) the atomic pointer holds either
the storage address or null; whenever it holds the storage address the
wrapped object is fully constructed; and a reader returns from
`operator T&` only after the object is fully constructed — a reader never
obtains a reference to a partially constructed object. -/
theorem static_storage_published_pointer_values {n g : Nat} {s : SSState n}
    (h : SSReachable n g s) :
    (s.ctorPC = 2 → s.mObject = PtrVal.storage ∨ s.mObject = PtrVal.null)
    ∧ (s.mObject = PtrVal.storage → s.constructed = true)
    ∧ (∀ i : Fin n, s.readerDone i = true → s.constructed = true) := by
  obtain ⟨i0, i1, i2, ile, ist, ird, ic1, ic0, id0, id1⟩ := ssInv_reachable h
  exact ⟨fun hpc => (i2 hpc).2, ist, ird⟩

theorem static_storage_published_pointer_values_witness :
    (ssD.mObject = PtrVal.storage ∨ ssD.mObject = PtrVal.null)
    ∧ ssD.constructed = true :=
  ⟨(static_storage_published_pointer_values ssReachD).1 rfl,
   (static_storage_published_pointer_values ssReachD).2.2 0 (by decide)⟩

/-- C3: in every reachable state of every interleaving of the constructor
thread with `n` readers, at most one constructor invocation of the wrapped
`T` has occurred; once the constructor thread has finished (`ctorPC = 2`)
exactly one has occurred; and any reader that has returned from
`operator T&` did so with the object fully constructed, after exactly one
construction. -/
theorem static_storage_single_construction {n g : Nat} {s : SSState n}
    (h : SSReachable n g s) :
    s.constructCount ≤ 1
    ∧ (s.ctorPC = 2 → s.constructCount = 1)
    ∧ (∀ i : Fin n, s.readerDone i = true →
        s.constructed = true ∧ s.constructCount = 1) := by
  obtain ⟨i0, i1, i2, ile, ist, ird, ic1, ic0, id0, id1⟩ := ssInv_reachable h
  refine ⟨?_, fun hpc => ic1 (i2 hpc).1, fun i hi => ⟨ird i hi, ic1 (ird i hi)⟩⟩
  cases hc : s.constructed
  · simp [ic0 hc]
  · simp [ic1 hc]

theorem static_storage_single_construction_witness :
    ssD.constructCount ≤ 1 ∧ ssD.constructCount = 1 ∧ ssD.constructed = true :=
  ⟨(static_storage_single_construction ssReachD).1,
   (static_storage_single_construction ssReachD).2.1 rfl,
   ((static_storage_single_construction ssReachD).2.2 0 (by decide)).1⟩

/-- C2: the wrapped destructor runs exactly once.  For any positive number
of teardown attempts (each being the destructor body's single CAS, so any
concurrent interleaving serializes into such a sequence), starting from a
published pointer the first attempt's CAS succeeds and runs `Destructor`,
every later attempt observes CAS failure and skips cleanup: the final
pointer is null and `Destructor` ran exactly once.  If the pointer does not
hold the storage address, no attempt ever destroys.  Moreover in every
reachable state of the full interleaved model, `Destructor` has run at
most once. -/
theorem static_storage_destruct_once (k : Nat) :
    runDestroys PtrVal.storage (k + 1) = (PtrVal.null, 1)
    ∧ (∀ v : PtrVal, v ≠ PtrVal.storage → runDestroys v (k + 1) = (v, 0))
    ∧ (∀ (n g : Nat) (s : SSState n), SSReachable n g s → s.destructCount ≤ 1) := by
  refine ⟨?_, ?_, ?_⟩
  · have hnull : (PtrVal.null : PtrVal) ≠ PtrVal.storage := by decide
    simp [runDestroys, casDestroy, runDestroys_stuck hnull k]
  · intro v hv
    exact runDestroys_stuck hv (k + 1)
  · intro n g s h
    obtain ⟨i0, i1, i2, ile, ist, ird, ic1, ic0, id0, id1⟩ := ssInv_reachable h
    exact id1

theorem static_storage_destruct_once_witness :
    runDestroys PtrVal.storage 3 = (PtrVal.null, 1)
    ∧ runDestroys (PtrVal.junk 3) 3 = (PtrVal.junk 3, 0)
    ∧ ssD.destructCount ≤ 1 :=
  ⟨(static_storage_destruct_once 2).1,
   (static_storage_destruct_once 2).2.1 (PtrVal.junk 3) (by decide),
   (static_storage_destruct_once 2).2.2 1 0 ssD ssReachD⟩

/-! ### AZ::PackedVector3 (src/unnamed/part_000)

A value type with three scalar fields `m_x`, `m_y`, `m_z` of a generic
scalar type, declared consecutively with no other members; the spec's
tight-packing invariant is what makes `GetElement`/`SetElement`'s
`reinterpret_cast<TYPE*>(this)[index]` address field `index`.  We embed
that memory view as the three-element buffer `[m_x, m_y, m_z]`. -/

/-- Modelled from the spec: `AZ::Vector3`, the "richer vector type"
(AzCore, not part of this excerpt), reduced to its three scalar components
with `GetX`/`GetY`/`GetZ` accessors and a three-argument constructor.  The
scalar type is kept abstract: the constructor and conversion of
`PackedVector3` copy components verbatim (no arithmetic), as in the
source when `TYPE` is the vector's own scalar type (`PackedVector3f`). -/
structure Vector3 (α : Type) where
  x : α
  y : α
  z : α
deriving DecidableEq

structure PackedVector3 (α : Type) where
  m_x : α
  m_y : α
  m_z : α
deriving DecidableEq

/-- `PackedVector3(const AZ::Vector3& rhs)`: copies `rhs.GetX()`,
`rhs.GetY()`, `rhs.GetZ()` into `m_x`, `m_y`, `m_z`. -/
def PackedVector3.ofVector3 {α : Type} (rhs : Vector3 α) : PackedVector3 α :=
  { m_x := rhs.x, m_y := rhs.y, m_z := rhs.z }

/-- `operator AZ::Vector3() const`: returns `AZ::Vector3(m_x, m_y, m_z)`. -/
def PackedVector3.toVector3 {α : Type} (p : PackedVector3 α) : Vector3 α :=
  { x := p.m_x, y := p.m_y, z := p.m_z }

/-- The object reinterpreted as a buffer of consecutive scalars
(`reinterpret_cast<TYPE*>(this)`), valid under the tight-packing
invariant. -/
def PackedVector3.asBuffer {α : Type} (p : PackedVector3 α) : List α :=
  [p.m_x, p.m_y, p.m_z]

/-- `GetElement(index)`: reads `reinterpret_cast<const TYPE*>(this)[index]`;
out-of-range indices (undefined behaviour in the source) yield `none`. -/
def PackedVector3.GetElement {α : Type} (p : PackedVector3 α) (index : Nat) : Option α :=
  p.asBuffer[index]?

/-- `SetElement(index, val)`: writes through the reinterpreted buffer. -/
def PackedVector3.SetElement {α : Type} (p : PackedVector3 α) (index : Nat)
    (val : α) : PackedVector3 α :=
  match p.asBuffer.set index val with
  | [a, b, c] => { m_x := a, m_y := b, m_z := c }
  | _ => p

/-- C4: for every vector `v`, constructing a `PackedVector3` from `v` and
converting back via `operator AZ::Vector3` yields a vector whose x, y and
z components are identical to those of `v` (indeed the same vector). -/
theorem packedVector3_roundtrip {α : Type} (v : Vector3 α) :
    (PackedVector3.ofVector3 v).toVector3 = v
    ∧ ((PackedVector3.ofVector3 v).toVector3).x = v.x
    ∧ ((PackedVector3.ofVector3 v).toVector3).y = v.y
    ∧ ((PackedVector3.ofVector3 v).toVector3).z = v.z :=
  ⟨rfl, rfl, rfl, rfl⟩

/-- C8: for every `PackedVector3` and index in {0, 1, 2}, `GetElement`
returns the x, y or z component respectively (through the contiguous
buffer view), and `SetElement` sets exactly that component, leaving the
other two unchanged. -/
theorem packedVector3_element_access {α : Type} (p : PackedVector3 α) (val : α) :
    p.GetElement 0 = some p.m_x
    ∧ p.GetElement 1 = some p.m_y
    ∧ p.GetElement 2 = some p.m_z
    ∧ p.SetElement 0 val = { p with m_x := val }
    ∧ p.SetElement 1 val = { p with m_y := val }
    ∧ p.SetElement 2 val = { p with m_z := val } :=
  ⟨rfl, rfl, rfl, rfl, rfl, rfl⟩

/-! ### EMStudio::AnimGraphOptions (src/unnamed/part_002) -/

def s_graphAnimationOptionName : String := "useGraphAnimation"

def s_showFPSOptionName : String := "showFPS"

structure AnimGraphOptions where
  m_graphAnimation : Bool
  m_showFPS : Bool
deriving DecidableEq

/-- The default constructor: `m_graphAnimation(true), m_showFPS(false)`. -/
def AnimGraphOptions.defaults : AnimGraphOptions :=
  { m_graphAnimation := true, m_showFPS := false }

/-- Modelled from the spec: the external key-value configuration store
(`QSettings`, not part of this excerpt) holding boolean values under
string keys.  `setValue` binds a key (shadowing earlier bindings) and
`value` yields a null variant exactly when the key is unbound (`none`
here). -/
abbrev QSettingsStore := List (String × Bool)

def setValue (settings : QSettingsStore) (key : String) (v : Bool) : QSettingsStore :=
  (key, v) :: settings

def getValue (settings : QSettingsStore) (key : String) : Option Bool :=
  List.lookup key settings

/-- `AnimGraphOptions::Save`: writes the two booleans under the two fixed
key names. -/
def AnimGraphOptions.Save (o : AnimGraphOptions) (settings : QSettingsStore) :
    QSettingsStore :=
  setValue (setValue settings s_graphAnimationOptionName o.m_graphAnimation)
    s_showFPSOptionName o.m_showFPS

/-- `AnimGraphOptions::Load`: starts from the default-constructed options
and overrides each field only when its key is present (the variant is not
null). -/
def AnimGraphOptions.Load (settings : QSettingsStore) : AnimGraphOptions :=
  let options := AnimGraphOptions.defaults
  let options :=
    match getValue settings s_graphAnimationOptionName with
    | some b => { options with m_graphAnimation := b }
    | none => options
  match getValue settings s_showFPSOptionName with
  | some b => { options with m_showFPS := b }
  | none => options

/-- C5: `Save` writes exactly the two booleans under the fixed keys
"useGraphAnimation" and "showFPS"; `Load` after `Save` returns the saved
options; and a key absent from the store leaves the corresponding field at
its default (graph animation true, show FPS false). -/
theorem animGraphOptions_save_load (o : AnimGraphOptions) (s : QSettingsStore) :
    getValue (o.Save s) s_graphAnimationOptionName = some o.m_graphAnimation
    ∧ getValue (o.Save s) s_showFPSOptionName = some o.m_showFPS
    ∧ AnimGraphOptions.Load (o.Save s) = o
    ∧ (∀ t : QSettingsStore, getValue t s_graphAnimationOptionName = none →
        (AnimGraphOptions.Load t).m_graphAnimation = true)
    ∧ (∀ t : QSettingsStore, getValue t s_showFPSOptionName = none →
        (AnimGraphOptions.Load t).m_showFPS = false) := by
  refine ⟨?_, ?_, ?_, ?_, ?_⟩
  · simp [getValue, setValue, AnimGraphOptions.Save, List.lookup,
      s_graphAnimationOptionName, s_showFPSOptionName]
  · simp [getValue, setValue, AnimGraphOptions.Save, List.lookup,
      s_graphAnimationOptionName, s_showFPSOptionName]
  · simp [getValue, setValue, AnimGraphOptions.Save, AnimGraphOptions.Load,
      AnimGraphOptions.defaults, List.lookup,
      s_graphAnimationOptionName, s_showFPSOptionName]
  · intro t h
    cases hf : getValue t s_showFPSOptionName <;>
      simp [AnimGraphOptions.Load, AnimGraphOptions.defaults, h, hf]
  · intro t h
    cases hg : getValue t s_graphAnimationOptionName <;>
      simp [AnimGraphOptions.Load, AnimGraphOptions.defaults, h, hg]

theorem animGraphOptions_save_load_witness :
    AnimGraphOptions.Load
      (AnimGraphOptions.Save { m_graphAnimation := false, m_showFPS := true } [])
      = { m_graphAnimation := false, m_showFPS := true }
    ∧ (AnimGraphOptions.Load []).m_graphAnimation = true
    ∧ (AnimGraphOptions.Load []).m_showFPS = false :=
  ⟨(animGraphOptions_save_load { m_graphAnimation := false, m_showFPS := true } []).2.2.1,
   (animGraphOptions_save_load { m_graphAnimation := false, m_showFPS := true } []).2.2.2.1
     [] rfl,
   (animGraphOptions_save_load { m_graphAnimation := false, m_showFPS := true } []).2.2.2.2
     [] rfl⟩

/-- `AnimGraphOptions::SetGraphAnimation`: updates the field and fires the
change notification only when the value actually changes.  The second
component is the list of option names for which `OnOptionChanged` was
raised on the plugin-options notification bus. -/
def AnimGraphOptions.SetGraphAnimation (o : AnimGraphOptions) (graphAnimation : Bool) :
    AnimGraphOptions × List String :=
  if graphAnimation ≠ o.m_graphAnimation then
    ({ o with m_graphAnimation := graphAnimation }, [s_graphAnimationOptionName])
  else
    (o, [])

/-- `AnimGraphOptions::SetShowFPS`: same pattern for the show-FPS flag. -/
def AnimGraphOptions.SetShowFPS (o : AnimGraphOptions) (showFPS : Bool) :
    AnimGraphOptions × List String :=
  if showFPS ≠ o.m_showFPS then
    ({ o with m_showFPS := showFPS }, [s_showFPSOptionName])
  else
    (o, [])

/-- C6: each setter leaves its target field equal to the argument, leaves
the other field unchanged, and fires exactly its own change notification
if and only if the argument differs from the field's previous value. -/
theorem animGraphOptions_setters (o : AnimGraphOptions) (b : Bool) :
    (o.SetGraphAnimation b).1.m_graphAnimation = b
    ∧ (o.SetGraphAnimation b).1.m_showFPS = o.m_showFPS
    ∧ ((o.SetGraphAnimation b).2 = [s_graphAnimationOptionName] ↔ b ≠ o.m_graphAnimation)
    ∧ ((o.SetGraphAnimation b).2 = [] ↔ b = o.m_graphAnimation)
    ∧ (o.SetShowFPS b).1.m_showFPS = b
    ∧ (o.SetShowFPS b).1.m_graphAnimation = o.m_graphAnimation
    ∧ ((o.SetShowFPS b).2 = [s_showFPSOptionName] ↔ b ≠ o.m_showFPS)
    ∧ ((o.SetShowFPS b).2 = [] ↔ b = o.m_showFPS) := by
  obtain ⟨ga, fps⟩ := o
  cases ga <;> cases fps <;> cases b <;>
    simp [AnimGraphOptions.SetGraphAnimation, AnimGraphOptions.SetShowFPS]

/-! ### ScriptCanvas::RuntimeAssetHandler
(src/dev/Gems/ScriptCanvas/Code/Include/ScriptCanvas/Asset/RuntimeAssetHandler.cpp)

The handler's own control flow is in the excerpt; the AzCore facilities it
delegates to (generic streams, the FileIO singleton, the object-stream
serializer, the component application bus) are repository code outside the
excerpt, modelled from the spec as abstract oracles bundled in
`EngineEnv`. -/

/-- Serialize contexts are opaque ids; `none` models a null
`AZ::SerializeContext*`. -/
abbrev SerializeContext := Nat

/-- Modelled from the spec: an open `AZ::IO::GenericStream` — byte content
plus a read position, supporting `Seek(0, ST_SEEK_BEGIN)`. -/
structure GenericStream where
  content : List Nat
  pos : Nat
deriving DecidableEq

/-- `stream->Seek(0U, AZ::IO::GenericStream::ST_SEEK_BEGIN)`. -/
def seekBegin (stream : GenericStream) : GenericStream :=
  { stream with pos := 0 }

/-- The asset argument as far as the handler inspects it:
`asset.GetAs<RuntimeAsset>()` is non-null exactly when the asset is a
`RuntimeAsset`. -/
structure AssetData where
  isRuntimeAsset : Bool

/-- Modelled from the spec: the engine environment the handler delegates
to — the outcome of `AZ::Utils::LoadObjectFromStreamInPlace` as a function
of stream content and read position, the outcome of the object stream's
`WriteClass`, the application's default serialize context obtainable over
the component application bus, whether a FileIO instance exists, and which
paths open (in read mode) to which contents. -/
structure EngineEnv where
  deserializeAt : List Nat → Nat → Bool
  writeResult : Bool
  appDefaultContext : Option SerializeContext
  fileInstancePresent : Bool
  openRead : String → Option (List Nat)

structure RuntimeAssetHandler where
  m_serializeContext : Option SerializeContext

/-- Stream-based `RuntimeAssetHandler::LoadAssetData`: if the asset is a
`RuntimeAsset` (else the assert fires, fail-loud) and the serialize
context is non-null, seeks the stream to the beginning and returns the
deserializer's result; otherwise returns false. -/
def LoadAssetDataStream (env : EngineEnv) (handler : RuntimeAssetHandler)
    (asset : AssetData) (stream : GenericStream) : Bool :=
  if asset.isRuntimeAsset && handler.m_serializeContext.isSome then
    let stream2 := seekBegin stream
    env.deserializeAt stream2.content stream2.pos
  else
    false

/-- Path-based `RuntimeAssetHandler::LoadAssetData`: requires the FileIO
instance and an openable file, then returns the stream-based load on the
opened stream; otherwise returns false. -/
def LoadAssetDataPath (env : EngineEnv) (handler : RuntimeAssetHandler)
    (asset : AssetData) (assetPath : String) : Bool :=
  if env.fileInstancePresent then
    match env.openRead assetPath with
    | some content =>
        LoadAssetDataStream env handler asset { content := content, pos := 0 }
    | none => false
  else
    false

/-- `RuntimeAssetHandler::SaveAssetData`: with a `RuntimeAsset` and a
non-null serialize context, returns `WriteClass`'s result; otherwise
false. -/
def SaveAssetData (env : EngineEnv) (handler : RuntimeAssetHandler)
    (asset : AssetData) : Bool :=
  if asset.isRuntimeAsset && handler.m_serializeContext.isSome then
    env.writeResult
  else
    false

/-- `RuntimeAssetHandler::SetSerializeContext`: stores the given context;
when it is null, falls back to the application's default context over the
component application bus; the second component records whether the
"no serialize context" `AZ_Error` was reported. -/
def SetSerializeContext (env : EngineEnv) (context : Option SerializeContext) :
    Option SerializeContext × Bool :=
  match context with
  | some c => (some c, false)
  | none =>
      match env.appDefaultContext with
      | some d => (some d, false)
      | none => (none, true)

/-- The constructor `RuntimeAssetHandler(AZ::SerializeContext* context)`
calls `SetSerializeContext(context)`. -/
def mkRuntimeAssetHandler (env : EngineEnv) (context : Option SerializeContext) :
    RuntimeAssetHandler :=
  { m_serializeContext := (SetSerializeContext env context).1 }

/-- C7: load and save fail soft.  Stream-based load and save return false
whenever the asset is not a `RuntimeAsset` or the serialize context is
null; path-based load additionally returns false when no FileIO instance
exists or the file cannot be opened, and otherwise returns the result of
the stream-based load on the opened stream. -/
theorem runtimeAssetHandler_fail_soft (env : EngineEnv)
    (handler : RuntimeAssetHandler) (asset : AssetData)
    (stream : GenericStream) (assetPath : String) :
    (asset.isRuntimeAsset = false ∨ handler.m_serializeContext = none →
      LoadAssetDataStream env handler asset stream = false
      ∧ SaveAssetData env handler asset = false)
    ∧ (env.fileInstancePresent = false →
      LoadAssetDataPath env handler asset assetPath = false)
    ∧ (env.openRead assetPath = none →
      LoadAssetDataPath env handler asset assetPath = false)
    ∧ (∀ content : List Nat, env.fileInstancePresent = true →
        env.openRead assetPath = some content →
        LoadAssetDataPath env handler asset assetPath
          = LoadAssetDataStream env handler asset { content := content, pos := 0 }) := by
  refine ⟨?_, ?_, ?_, ?_⟩
  · rintro (h | h) <;> simp [LoadAssetDataStream, SaveAssetData, h]
  · intro h
    simp [LoadAssetDataPath, h]
  · intro h
    cases hf : env.fileInstancePresent <;> simp [LoadAssetDataPath, h, hf]
  · intro content hf ho
    simp [LoadAssetDataPath, hf, ho]

/-- Concrete engine environments for the witnesses below. -/
def envNoFile : EngineEnv :=
  { deserializeAt := fun _ _ => true, writeResult := true,
    appDefaultContext := none, fileInstancePresent := false,
    openRead := fun _ => none }

def envNoOpen : EngineEnv :=
  { deserializeAt := fun _ _ => true, writeResult := true,
    appDefaultContext := none, fileInstancePresent := true,
    openRead := fun _ => none }

def envWithFile : EngineEnv :=
  { deserializeAt := fun _ _ => true, writeResult := true,
    appDefaultContext := some 0, fileInstancePresent := true,
    openRead := fun _ => some [] }

theorem runtimeAssetHandler_fail_soft_witness :
    (LoadAssetDataStream envWithFile { m_serializeContext := some 0 }
        { isRuntimeAsset := false } { content := [], pos := 5 } = false
      ∧ SaveAssetData envWithFile { m_serializeContext := some 0 }
        { isRuntimeAsset := false } = false)
    ∧ LoadAssetDataPath envNoFile { m_serializeContext := some 0 }
        { isRuntimeAsset := true } "a" = false
    ∧ LoadAssetDataPath envNoOpen { m_serializeContext := some 0 }
        { isRuntimeAsset := true } "a" = false
    ∧ LoadAssetDataPath envWithFile { m_serializeContext := some 0 }
        { isRuntimeAsset := true } "a"
      = LoadAssetDataStream envWithFile { m_serializeContext := some 0 }
          { isRuntimeAsset := true } { content := [], pos := 0 } :=
  ⟨(runtimeAssetHandler_fail_soft envWithFile { m_serializeContext := some 0 }
      { isRuntimeAsset := false } { content := [], pos := 5 } "a").1 (Or.inl rfl),
   (runtimeAssetHandler_fail_soft envNoFile { m_serializeContext := some 0 }
      { isRuntimeAsset := true } { content := [], pos := 0 } "a").2.1 rfl,
   (runtimeAssetHandler_fail_soft envNoOpen { m_serializeContext := some 0 }
      { isRuntimeAsset := true } { content := [], pos := 0 } "a").2.2.1 rfl,
   (runtimeAssetHandler_fail_soft envWithFile { m_serializeContext := some 0 }
      { isRuntimeAsset := true } { content := [], pos := 0 } "a").2.2.2 [] rfl rfl⟩

/-- C9: stream-based `LoadAssetData` always seeks the stream back to
offset 0 before deserializing, so for fixed stream content (and fixed
handler, asset and engine environment) the result does not depend on the
stream's read position on entry. -/
theorem runtimeAssetHandler_load_seeks_begin (env : EngineEnv)
    (handler : RuntimeAssetHandler) (asset : AssetData)
    (content : List Nat) (p1 p2 : Nat) :
    LoadAssetDataStream env handler asset { content := content, pos := p1 }
      = LoadAssetDataStream env handler asset { content := content, pos := p2 } := by
  simp [LoadAssetDataStream, seekBegin]

/-- C10: `SetSerializeContext` called with a null context falls back to
the application's default serialize context from the component application
bus; only when that too is unavailable does the handler keep a null
context (reporting the error), and then stream-based load, path-based load
and save all return false. -/
theorem runtimeAssetHandler_null_context_fallback (env : EngineEnv) :
    (∀ d : SerializeContext, env.appDefaultContext = some d →
      SetSerializeContext env none = (some d, false))
    ∧ (env.appDefaultContext = none →
      SetSerializeContext env none = (none, true)
      ∧ ∀ (asset : AssetData) (stream : GenericStream) (assetPath : String),
          LoadAssetDataStream env (mkRuntimeAssetHandler env none) asset stream = false
          ∧ SaveAssetData env (mkRuntimeAssetHandler env none) asset = false
          ∧ LoadAssetDataPath env (mkRuntimeAssetHandler env none) asset assetPath
              = false) := by
  refine ⟨?_, ?_⟩
  · intro d h
    simp [SetSerializeContext, h]
  · intro h
    refine ⟨by simp [SetSerializeContext, h], ?_⟩
    intro asset stream assetPath
    have hctx : (mkRuntimeAssetHandler env none).m_serializeContext = none := by
      simp [mkRuntimeAssetHandler, SetSerializeContext, h]
    refine ⟨by simp [LoadAssetDataStream, hctx], by simp [SaveAssetData, hctx], ?_⟩
    cases hf : env.fileInstancePresent
    · simp [LoadAssetDataPath, hf]
    · cases ho : env.openRead assetPath <;>
        simp [LoadAssetDataPath, hf, ho, LoadAssetDataStream, hctx]

theorem runtimeAssetHandler_null_context_fallback_witness :
    SetSerializeContext envWithFile none = (some 0, false)
    ∧ SetSerializeContext envNoOpen none = (none, true)
    ∧ LoadAssetDataStream envNoOpen (mkRuntimeAssetHandler envNoOpen none)
        { isRuntimeAsset := true } { content := [], pos := 0 } = false
    ∧ SaveAssetData envNoOpen (mkRuntimeAssetHandler envNoOpen none)
        { isRuntimeAsset := true } = false
    ∧ LoadAssetDataPath envNoOpen (mkRuntimeAssetHandler envNoOpen none)
        { isRuntimeAsset := true } "a" = false :=
  ⟨(runtimeAssetHandler_null_context_fallback envWithFile).1 0 rfl,
   ((runtimeAssetHandler_null_context_fallback envNoOpen).2 rfl).1,
   (((runtimeAssetHandler_null_context_fallback envNoOpen).2 rfl).2
      { isRuntimeAsset := true } { content := [], pos := 0 } "a").1,
   (((runtimeAssetHandler_null_context_fallback envNoOpen).2 rfl).2
      { isRuntimeAsset := true } { content := [], pos := 0 } "a").2.1,
   (((runtimeAssetHandler_null_context_fallback envNoOpen).2 rfl).2
      { isRuntimeAsset := true } { content := [], pos := 0 } "a").2.2⟩

end Lumberyard
